import Mathlib

/-!
Verification of the Papayas Tierlist service (api.py, database.py).

The relational store is embedded as explicit state: each table is a list of
rows in insertion order, a missing connection is `none`, and SQL queries are
modelled by list operations (`ORDER BY puntos_totales DESC` with PostgreSQL's
default NULLS FIRST becomes a stable sort by that key; `WHERE` becomes
`filter`).  Nullable SQL columns and optional JSON fields are `Option`;
JSONB objects are association lists.  Python code that can raise
(`None >= 90` in the overall-tier ladder) is embedded in `Except`, matching
the route handlers' `except` branches.
-/

namespace Papayas

/-- A row of the `jugadores` table (database.py `init_database`): every column
except the primary key `discord_id` is nullable. -/
structure Jugador where
  discord_id : String
  nick_mc : Option String
  discord_name : Option String
  tier_por_modalidad : Option (List (String × String))
  puntos_por_modalidad : Option (List (String × Int))
  puntos_totales : Option Int
  es_premium : Option String
  deriving Repr, DecidableEq

/-- A row of the `resultados` table; `fecha` has a DEFAULT so it is always
populated on insert. -/
structure Resultado where
  nick_mc : Option String
  jugador_id : String
  jugador_name : Option String
  tester_id : String
  tester_name : Option String
  modalidad : Option String
  tier_antiguo : Option String
  tier_nuevo : Option String
  puntos_obtenidos : Option Int
  puntos_totales : Option Int
  fecha : Int
  deriving Repr, DecidableEq

/-- A row of the `cooldowns` table; `(jugador_id, modalidad)` carries a UNIQUE
constraint, timestamps are nullable. -/
structure CooldownRow where
  jugador_id : String
  modalidad : String
  start_date : Option Int
  end_date : Option Int
  deriving Repr, DecidableEq

/-- The whole PostgreSQL database. -/
structure Store where
  jugadores : List Jugador
  resultados : List Resultado
  cooldowns : List CooldownRow
  deriving Repr, DecidableEq

/-- Python `a or b` on two optional strings (`nick_mc or discord_name`):
`None` and the empty string are falsy. -/
def pyOrStr (a b : Option String) : Option String :=
  match a with
  | some s => if s = "" then b else some s
  | none => b

/-- api.py lines 73: the closed mode enumeration. -/
def valid_modes : List String :=
  ["overall", "Mace", "Sword", "UHC", "Crystal", "NethOP", "SMP", "Axe", "Dpot"]

/-- api.py lines 113-132: the overall-tier ladder over total points. -/
def tierOverallOf (p : Int) : String :=
  if p ≥ 90 then "HT1"
  else if p ≥ 80 then "LT1"
  else if p ≥ 70 then "HT2"
  else if p ≥ 60 then "LT2"
  else if p ≥ 50 then "HT3"
  else if p ≥ 40 then "LT3"
  else if p ≥ 30 then "HT4"
  else if p ≥ 20 then "LT4"
  else if p ≥ 10 then "HT5"
  else "LT5"

/-- api.py lines 110-136: `tier_actual` for one row.  For `overall` the code
compares `puntos_totales >= 90` directly, so a NULL total raises a
`TypeError` (modelled as `Except.error`); for a concrete mode it reads
`tier_por_modalidad[mode]` when the JSONB is truthy and contains the key,
else leaves `None`. -/
def tier_actual (mode : String) (j : Jugador) : Except Unit (Option String) :=
  if mode = "overall" then
    match j.puntos_totales with
    | none => .error ()
    | some p => .ok (some (tierOverallOf p))
  else
    .ok (match j.tier_por_modalidad with
         | none => none
         | some tm => tm.lookup mode)

/-- One value of the per-mode view (api.py lines 146-150). -/
structure Entry where
  tier : String
  tier_display : String
  puntos : Int
  deriving Repr, DecidableEq

/-- api.py lines 139-150: the `modalidades` dict for one row; a missing
points entry (or a NULL/empty points JSONB) defaults to 0. -/
def modalidadesOf (j : Jugador) : List (String × Entry) :=
  match j.tier_por_modalidad with
  | none => []
  | some tm =>
      tm.map (fun mt =>
        let puntos : Int :=
          match j.puntos_por_modalidad with
          | none => 0
          | some pm => (pm.lookup mt.1).getD 0
        (mt.1, ⟨mt.2, mt.2, puntos⟩))

/-- The player object built by api.py lines 153-160. -/
structure PlayerObj where
  id : String
  name : Option String
  points : Int
  es_premium : String
  modalidades : List (String × Entry)
  tier : Option String
  deriving Repr, DecidableEq

/-- api.py lines 109-160: build the player object for one row; propagates the
`TypeError` of the overall ladder on a NULL total.  `points` is
`puntos_totales or 0`. -/
def build_player (mode : String) (j : Jugador) : Except Unit PlayerObj :=
  match tier_actual mode j with
  | .error e => .error e
  | .ok t =>
      .ok { id := j.discord_id
            name := pyOrStr j.nick_mc j.discord_name
            points := j.puntos_totales.getD 0
            es_premium := if j.es_premium = some "si" then "si" else "no"
            modalidades := modalidadesOf j
            tier := t }

/-- The `tiers` dict: tier label to bucket, in first-appearance order. -/
abbrev Buckets := List (String × List PlayerObj)

/-- api.py lines 165-168: append a player to its tier bucket, creating the
bucket on first appearance. -/
def bucket_add (bs : Buckets) (t : String) (p : PlayerObj) : Buckets :=
  match bs with
  | [] => [(t, [p])]
  | b :: rest => if b.1 = t then (b.1, b.2 ++ [p]) :: rest else b :: bucket_add rest t p

/-- api.py lines 162-168: one loop iteration's effect on the accumulated
`players_array` and `tiers_dict`.  The bucket guard is Python truthiness
(`if tier_actual:`), so both `None` and the empty string skip bucketing. -/
def step_acc (acc : List PlayerObj × Buckets) (obj : PlayerObj) : List PlayerObj × Buckets :=
  (acc.1 ++ [obj],
   match obj.tier with
   | some t => if t = "" then acc.2 else bucket_add acc.2 t obj
   | none => acc.2)

/-- api.py lines 106-168: the row loop.  A raise inside the loop aborts the
whole handler (the partial accumulators are discarded by the `except`). -/
def process_rows (mode : String) (acc : List PlayerObj × Buckets) :
    List Jugador → Except Unit (List PlayerObj × Buckets)
  | [] => .ok acc
  | j :: rest =>
      match build_player mode j with
      | .error e => .error e
      | .ok obj => process_rows mode (step_acc acc obj) rest

/-- The sort key comparison of `ORDER BY puntos_totales DESC` (PostgreSQL
defaults to NULLS FIRST for DESC): `totDesc a b` says row total `a` may come
before row total `b`. -/
def totDesc (a b : Option Int) : Bool :=
  match a, b with
  | none, _ => true
  | some _, none => false
  | some x, some y => y ≤ x

/-- Ordering relation on `jugadores` rows induced by the SQL ORDER BY. -/
def rowGE (a b : Jugador) : Prop := totDesc a.puntos_totales b.puntos_totales = true

instance : DecidableRel rowGE := fun a b => by unfold rowGE; infer_instance

/-- api.py lines 94-100: the rows scan, sorted by total points descending
(stable on ties). -/
def sortJugadores (rows : List Jugador) : List Jugador :=
  rows.insertionSort rowGE

/-- The JSON body of a rankings response that carries player data
(success, store-unavailable, or the 500 `except` branch). -/
structure RankResp where
  mode : String
  players : List PlayerObj
  tiers : Buckets
  total_players : Nat
  status : Nat
  deriving Repr, DecidableEq

/-- A rankings response: `badMode` is the 400 rejection of api.py lines 75-79. -/
inductive RankingsResult where
  | badMode (validModes : List String)
  | resp (r : RankResp)
  deriving Repr, DecidableEq

/-- api.py lines 90-187: the body served once a connection exists — the row
loop's result on success, the empty error body with status 500 when the loop
raised. -/
def rankings_body (mode : String) (st : Store) : RankResp :=
  match process_rows mode ([], []) (sortJugadores st.jugadores) with
  | .ok pt => ⟨mode, pt.1, pt.2, pt.1.length, 200⟩
  | .error _ => ⟨mode, [], [], 0, 500⟩

/-- api.py lines 70-187: the `/api/rankings/<mode>` handler. -/
def get_rankings (mode : String) (conn : Option Store) : RankingsResult :=
  if mode ∈ valid_modes then
    match conn with
    | none => .resp ⟨mode, [], [], 0, 200⟩
    | some st => .resp (rankings_body mode st)
  else .badMode valid_modes

/-- SQL `puntos_totales > %s` where both sides may be NULL: any comparison
with NULL is not satisfied. -/
def sqlGtOpt (a b : Option Int) : Bool :=
  match a, b with
  | some x, some y => y < x
  | _, _ => false

/-- The body of a successful `/api/player/<discord_id>` response
(api.py lines 237-247). -/
structure PlayerInfo where
  id : String
  name : Option String
  discord_name : Option String
  nick_mc : Option String
  puntos_totales : Int
  es_premium : String
  tiers : List (String × Entry)
  position : Nat
  tested : Bool
  deriving Repr, DecidableEq

/-- A player-lookup response: either an error body with its HTTP status
(500 on a missing connection, 404 when absent) or the player projection. -/
inductive PlayerResult where
  | failure (error : String) (status : Nat)
  | found (info : PlayerInfo)
  deriving Repr, DecidableEq

/-- api.py lines 189-253: the `/api/player/<discord_id>` handler.  The rank
position counts rows with strictly greater `puntos_totales`, plus 1. -/
def get_player (conn : Option Store) (did : String) : PlayerResult :=
  match conn with
  | none => .failure "Database connection failed" 500
  | some st =>
      match st.jugadores.find? (fun j => j.discord_id == did) with
      | none => .failure "Player not found" 404
      | some j =>
          .found { id := j.discord_id
                   name := pyOrStr j.nick_mc j.discord_name
                   discord_name := j.discord_name
                   nick_mc := j.nick_mc
                   puntos_totales := j.puntos_totales.getD 0
                   es_premium := if j.es_premium = some "si" then "si" else "no"
                   tiers := modalidadesOf j
                   position :=
                     (st.jugadores.countP
                       (fun r => sqlGtOpt r.puntos_totales j.puntos_totales)) + 1
                   tested := true }

/-- The body of a successful `/api/stats` response (api.py lines 289-293). -/
structure StatsInfo where
  total_players : Nat
  total_tests : Nat
  top_testers : List (Option String × Nat)
  deriving Repr, DecidableEq

/-- A stats response: the 500 error body on a missing connection, or the
aggregate counts. -/
inductive StatsResult where
  | failure (error : String) (status : Nat)
  | ok (info : StatsInfo)
  deriving Repr, DecidableEq

/-- `GROUP BY tester_id, tester_name`: the distinct key pairs in
first-appearance order. -/
def testerKeys (rs : List Resultado) : List (String × Option String) :=
  rs.foldl
    (fun acc r =>
      if (r.tester_id, r.tester_name) ∈ acc then acc
      else acc ++ [(r.tester_id, r.tester_name)]) []

/-- api.py lines 255-299: the `/api/stats` handler.  Top testers: group the
`resultados` rows by tester, order by count descending (stable model of the
SQL sort) and keep the first five, projecting name and count. -/
def get_stats (conn : Option Store) : StatsResult :=
  match conn with
  | none => .failure "Database connection failed" 500
  | some st =>
      .ok { total_players := st.jugadores.length
            total_tests := st.resultados.length
            top_testers :=
              (((testerKeys st.resultados).map
                  (fun k => (k, st.resultados.countP (fun r => (r.tester_id, r.tester_name) = k))))
                 |>.insertionSort (fun a b => b.2 ≤ a.2)
                 |>.take 5
                 |>.map (fun kc => (kc.1.2, kc.2))) }

/-! ### database.py -/

/-- The `jugador_data` dict passed to `save_or_update_jugador`: `none` means
the key is absent and the code's `.get` default applies. -/
structure JugadorData where
  discord_id : String
  nick_mc : Option String := none
  discord_name : Option String := none
  tier_por_modalidad : Option (List (String × String)) := none
  puntos_por_modalidad : Option (List (String × Int)) := none
  puntos_totales : Option Int := none
  es_premium : Option String := none
  deriving Repr, DecidableEq

/-- The row written by database.py lines 152-185: JSONB maps default to the
empty object, the total to 0, the premium flag to "no"; names stay NULL when
absent. -/
def jugadorRowOfData (d : JugadorData) : Jugador :=
  { discord_id := d.discord_id
    nick_mc := d.nick_mc
    discord_name := d.discord_name
    tier_por_modalidad := some (d.tier_por_modalidad.getD [])
    puntos_por_modalidad := some (d.puntos_por_modalidad.getD [])
    puntos_totales := some (d.puntos_totales.getD 0)
    es_premium := some (d.es_premium.getD "no") }

/-- database.py lines 136-194: UPDATE the row with the given `discord_id` if
one exists, else INSERT; every stored column comes from `jugador_data`. -/
def save_or_update_jugador (tbl : List Jugador) (d : JugadorData) : List Jugador :=
  if tbl.any (fun j => j.discord_id == d.discord_id) then
    tbl.map (fun j => if j.discord_id == d.discord_id then jugadorRowOfData d else j)
  else tbl ++ [jugadorRowOfData d]

/-- The `resultado_data` dict of `add_resultado`: `jugador_id` and
`tester_id` are accessed with `[]` (required), the rest with `.get`. -/
structure ResultadoData where
  nick_mc : Option String := none
  jugador_id : String
  jugador_name : Option String := none
  tester_id : String
  tester_name : Option String := none
  modalidad : Option String := none
  tier_antiguo : Option String := none
  tier_nuevo : Option String := none
  puntos_obtenidos : Option Int := none
  puntos_totales : Option Int := none
  fecha : Option Int := none
  deriving Repr, DecidableEq

/-- database.py lines 101-134: INSERT one `resultados` row; `fecha` defaults
to the current time when absent. -/
def add_resultado (now : Int) (tbl : List Resultado) (d : ResultadoData) : List Resultado :=
  tbl ++ [{ nick_mc := d.nick_mc
            jugador_id := d.jugador_id
            jugador_name := d.jugador_name
            tester_id := d.tester_id
            tester_name := d.tester_name
            modalidad := d.modalidad
            tier_antiguo := d.tier_antiguo
            tier_nuevo := d.tier_nuevo
            puntos_obtenidos := d.puntos_obtenidos
            puntos_totales := d.puntos_totales
            fecha := d.fecha.getD now }]

/-- database.py lines 236-253: DELETE the `resultados` rows of one tester,
returning the remaining table and the rowcount removed. -/
def delete_tester_resultados (tbl : List Resultado) (tid : String) : List Resultado × Nat :=
  (tbl.filter (fun r => !(r.tester_id == tid)), (tbl.filter (fun r => r.tester_id == tid)).length)

/-- The normalized player dict returned by database.py lines 374-409
(`get_jugador_by_id`): NULL JSONB maps become empty, a NULL total becomes 0. -/
structure JugadorDict where
  discord_id : String
  nick_mc : Option String
  discord_name : Option String
  tier_por_modalidad : List (String × String)
  puntos_por_modalidad : List (String × Int)
  puntos_totales : Int
  es_premium : Option String
  deriving Repr, DecidableEq

/-- database.py lines 374-409: point lookup of one player, normalizing NULL
fields (`tiers_json or {}`, `ptotal or 0`). -/
def get_jugador_by_id (tbl : List Jugador) (did : String) : Option JugadorDict :=
  (tbl.find? (fun j => j.discord_id == did)).map
    (fun j => { discord_id := j.discord_id
                nick_mc := j.nick_mc
                discord_name := j.discord_name
                tier_por_modalidad := j.tier_por_modalidad.getD []
                puntos_por_modalidad := j.puntos_por_modalidad.getD []
                puntos_totales := j.puntos_totales.getD 0
                es_premium := j.es_premium })

/-- database.py lines 285-314: `save_cooldown` upserts on the UNIQUE key
`(jugador_id, modalidad)`, overwriting `start_date`/`end_date` on conflict. -/
def save_cooldown (tbl : List CooldownRow) (p m : String) (s e : Option Int) :
    List CooldownRow :=
  if tbl.any (fun r => r.jugador_id == p && r.modalidad == m) then
    tbl.map (fun r =>
      if r.jugador_id == p && r.modalidad == m then
        { r with start_date := s, end_date := e }
      else r)
  else tbl ++ [⟨p, m, s, e⟩]

/-- SQL `end_date > NOW()`: false when the end is NULL. -/
def activeB (now : Int) (r : CooldownRow) : Bool :=
  match r.end_date with
  | some e => now < e
  | none => false

/-- SQL `end_date <= NOW()`: false when the end is NULL. -/
def expiredB (now : Int) (r : CooldownRow) : Bool :=
  match r.end_date with
  | some e => e ≤ now
  | none => false

/-- The nested dict built by `get_active_cooldowns`:
player id to mode to (start, end). -/
abbrev CooldownMap := List (String × List (String × (Option Int × Option Int)))

/-- Python dict assignment on an association list: replace the first binding
of the key, or append a new one. -/
def dictSet (l : List (String × α)) (k : String) (v : α) : List (String × α) :=
  match l with
  | [] => [(k, v)]
  | kv :: rest => if kv.1 = k then (kv.1, v) :: rest else kv :: dictSet rest k v

/-- `cooldowns[jugador_id][modalidad] = {start, end}` on the nested dict. -/
def cdSet (m : CooldownMap) (p mo : String) (v : Option Int × Option Int) : CooldownMap :=
  match m.lookup p with
  | none => dictSet m p [(mo, v)]
  | some inner => dictSet m p (dictSet inner mo v)

/-- Read `cooldowns[p][mo]` from the nested dict. -/
def cdLookup (m : CooldownMap) (p mo : String) : Option (Option Int × Option Int) :=
  (m.lookup p).bind (fun inner => inner.lookup mo)

/-- One loop iteration of `get_active_cooldowns`: write the row's window
under its player and mode keys. -/
def cdStep (acc : CooldownMap) (r : CooldownRow) : CooldownMap :=
  cdSet acc r.jugador_id r.modalidad (r.start_date, r.end_date)

/-- database.py lines 316-350: scan the rows whose `end_date` is strictly in
the future and build the nested player-to-mode dict. -/
def get_active_cooldowns (now : Int) (tbl : List CooldownRow) : CooldownMap :=
  (tbl.filter (activeB now)).foldl cdStep []

/-- database.py lines 352-372: DELETE the rows with `end_date <= NOW()`,
returning the remaining table and the rowcount removed. -/
def delete_expired_cooldowns (now : Int) (tbl : List CooldownRow) :
    List CooldownRow × Nat :=
  (tbl.filter (fun r => !expiredB now r), (tbl.filter (expiredB now)).length)

/-! ### The Result Recorder -/

/-- The incoming result handed to the Result Recorder.  The two identifiers
are optional because their absence is a validation failure (spec §4.3 step 1);
`puntos_totales` is the caller-supplied running total, which belongs only in
the TestResult log row. -/
structure ResultInput where
  jugador_id : Option String
  tester_id : Option String
  nick_mc : Option String := none
  jugador_name : Option String := none
  tester_name : Option String := none
  modalidad : String
  tier_antiguo : Option String := none
  tier_nuevo : String
  puntos_obtenidos : Int
  puntos_totales : Option Int := none
  fecha : Option Int := none
  deriving Repr, DecidableEq

/-- Failure of the Result Recorder surfaced to the caller. -/
inductive RecError where
  | validation
  deriving Repr, DecidableEq

/-- Modelled from the spec: the player update written by the Result Recorder
(spec §4.3 steps 3-5) — fetch or create the record, set the mode's tier and
points, and recompute the total as the sum of the per-mode points, ignoring
any caller-supplied total. -/
def recorder_data (st : Store) (i : ResultInput) (jid : String) : JugadorData :=
  let base := (get_jugador_by_id st.jugadores jid).getD
    { discord_id := jid, nick_mc := i.nick_mc, discord_name := i.jugador_name,
      tier_por_modalidad := [], puntos_por_modalidad := [],
      puntos_totales := 0, es_premium := none }
  let pts := dictSet base.puntos_por_modalidad i.modalidad i.puntos_obtenidos
  { discord_id := jid, nick_mc := i.nick_mc, discord_name := i.jugador_name,
    tier_por_modalidad := some (dictSet base.tier_por_modalidad i.modalidad i.tier_nuevo),
    puntos_por_modalidad := some pts,
    puntos_totales := some ((pts.map Prod.snd).sum),
    es_premium := base.es_premium }

/-- Modelled from the spec: the store effect of an accepted result — append
the TestResult row (spec §4.3 step 2, timestamp defaulting to recording
time) and persist the player update (step 6). -/
def recorder_apply (now : Int) (st : Store) (i : ResultInput) (jid tid : String) : Store :=
  { st with
    resultados := add_resultado now st.resultados
      { nick_mc := i.nick_mc, jugador_id := jid, jugador_name := i.jugador_name,
        tester_id := tid, tester_name := i.tester_name,
        modalidad := some i.modalidad, tier_antiguo := i.tier_antiguo,
        tier_nuevo := some i.tier_nuevo,
        puntos_obtenidos := some i.puntos_obtenidos,
        puntos_totales := i.puntos_totales, fecha := i.fecha },
    jugadores := save_or_update_jugador st.jugadores (recorder_data st i jid) }

/-- Modelled from the spec: the Result Recorder orchestration (`record_result`,
spec §4.3) is not among the source files; src/ holds only its persistence
callees (`add_resultado`, `get_jugador_by_id`, `save_or_update_jugador`),
which are embedded above from the source.  A missing player or tester
identifier is a validation failure (step 1); otherwise the effect of
`recorder_apply` is committed. -/
def record_result (now : Int) (st : Store) (i : ResultInput) : Except RecError Store :=
  match i.jugador_id, i.tester_id with
  | some jid, some tid => .ok (recorder_apply now st i jid tid)
  | _, _ => .error .validation

/-! ### Response projections and concrete stores used in the theorems -/

/-- The `players` array of a rankings response (empty for the 400 body). -/
def playersOf : RankingsResult → List PlayerObj
  | .badMode _ => []
  | .resp r => r.players

/-- The `tiers` dict of a rankings response (empty for the 400 body). -/
def tiersOf : RankingsResult → Buckets
  | .badMode _ => []
  | .resp r => r.tiers

/-- The `jugadores` table after a recorder call, when it succeeded. -/
def jugadoresOf : Except RecError Store → Option (List Jugador)
  | .ok st => some st.jugadores
  | .error _ => none

/-- A tested player whose tier map has no "Sword" entry. -/
def jNoTier : Jugador :=
  ⟨"p1", none, none, some [("Axe", "HT2")], some [("Axe", 40)], some 40, none⟩

/-- A player leading on total points but weakest in "Sword". -/
def jSwordLow : Jugador :=
  ⟨"a", none, none, some [("Sword", "LT5")], some [("Sword", 1)], some 10, none⟩

/-- A player trailing on total points but strongest in "Sword". -/
def jSwordHigh : Jugador :=
  ⟨"b", none, none, some [("Sword", "HT1")], some [("Sword", 50)], some 5, none⟩

/-- A player row whose `puntos_totales` column is NULL. -/
def jNullTotal : Jugador := ⟨"p1", none, none, none, none, none, none⟩

/-- A player whose stored "Sword" tier label is the empty string. -/
def jEmptyTier : Jugador :=
  ⟨"p1", none, none, some [("Sword", "")], some [("Sword", 5)], some 3, none⟩

/-- A database holding exactly the given players. -/
def storeOf (js : List Jugador) : Store := ⟨js, [], []⟩

/-- A sample recorder input: 30 Sword points for a fresh player, with a
bogus caller-supplied total of 999. -/
def sampleInput : ResultInput :=
  { jugador_id := some "x", tester_id := some "t", modalidad := "Sword",
    tier_nuevo := "HT3", puntos_obtenidos := 30, puntos_totales := some 999 }

/-- The store produced by recording `sampleInput` on an empty store at time
5: the player's stored total is the recomputed 30, while the log row keeps
the caller's 999. -/
def sampleOutStore : Store :=
  ⟨[⟨"x", none, none, some [("Sword", "HT3")], some [("Sword", 30)], some 30, some "no"⟩],
   [⟨none, "x", none, "t", none, some "Sword", none, some "HT3", some 30, some 999, 5⟩],
   []⟩

/-- The player object served for `jNoTier` in overall mode. -/
def pNoTierOverall : PlayerObj :=
  ⟨"p1", none, 40, "no", [("Axe", ⟨"HT2", "HT2", 40⟩)], some "LT3"⟩

/-- The overall-mode rankings response for the store holding only `jNoTier`. -/
def rNoTierOverall : RankResp :=
  ⟨"overall", [pNoTierOverall], [("LT3", [pNoTierOverall])], 1, 200⟩

/-- The bucket `tiers[t]` of a tiers dict, empty when the key is absent. -/
def bucketOf (bs : Buckets) (t : String) : List PlayerObj :=
  (bs.lookup t).getD []

instance : IsTotal Jugador rowGE :=
  ⟨by
    intro a b
    have h : ∀ x y : Option Int, totDesc x y = true ∨ totDesc y x = true := by
      intro x y
      cases x <;> cases y <;> simp [totDesc] <;> omega
    exact h a.puntos_totales b.puntos_totales⟩

instance : IsTrans Jugador rowGE :=
  ⟨by
    intro a b c hab hbc
    have h : ∀ x y z : Option Int,
        totDesc x y = true → totDesc y z = true → totDesc x z = true := by
      intro x y z
      cases x <;> cases y <;> cases z <;> simp [totDesc] <;> omega
    exact h _ _ _ hab hbc⟩

/-! ### Theorems -/

set_option maxHeartbeats 1600000 in
/-- C4: for every integer `p` the overall-mode tier derivation returns exactly
one of the ten labels HT1..LT5, with inclusive lower bounds
90, 80, 70, 60, 50, 40, 30, 20, 10 and LT5 as the catch-all; in particular
`p = 90 ↦ HT1`, `p = 89 ↦ LT1`, `p = 10 ↦ HT5`, `p = 9 ↦ LT5`,
`p = -5 ↦ LT5`. -/
theorem C4_overall_ladder (p : Int) :
    tierOverallOf p ∈
      ["HT1", "LT1", "HT2", "LT2", "HT3", "LT3", "HT4", "LT4", "HT5", "LT5"] ∧
    (tierOverallOf p = "HT1" ↔ 90 ≤ p) ∧
    (tierOverallOf p = "LT1" ↔ 80 ≤ p ∧ p < 90) ∧
    (tierOverallOf p = "HT2" ↔ 70 ≤ p ∧ p < 80) ∧
    (tierOverallOf p = "LT2" ↔ 60 ≤ p ∧ p < 70) ∧
    (tierOverallOf p = "HT3" ↔ 50 ≤ p ∧ p < 60) ∧
    (tierOverallOf p = "LT3" ↔ 40 ≤ p ∧ p < 50) ∧
    (tierOverallOf p = "HT4" ↔ 30 ≤ p ∧ p < 40) ∧
    (tierOverallOf p = "LT4" ↔ 20 ≤ p ∧ p < 30) ∧
    (tierOverallOf p = "HT5" ↔ 10 ≤ p ∧ p < 20) ∧
    (tierOverallOf p = "LT5" ↔ p < 10) ∧
    tierOverallOf 90 = "HT1" ∧ tierOverallOf 89 = "LT1" ∧
    tierOverallOf 10 = "HT5" ∧ tierOverallOf 9 = "LT5" ∧
    tierOverallOf (-5) = "LT5" := by
  refine ⟨?_, ?_, ?_, ?_, ?_, ?_, ?_, ?_, ?_, ?_, ?_,
    by decide, by decide, by decide, by decide, by decide⟩ <;>
  · unfold tierOverallOf
    split_ifs <;> simp <;> omega

/-- C5 (code bug): api.py compares `puntos_totales >= 90` directly, so a row
whose `puntos_totales` column is NULL makes the overall-tier derivation raise
a `TypeError` instead of treating the value as 0 (which would give LT5); the
handler's `except` turns the whole rankings read into the empty 500 error
response.  The contrasting conjuncts show the claimed behaviour elsewhere: a
stored 0 does give LT5, and a NULL per-mode map row is served without failing
(points defaulted to 0, tier absent). -/
theorem C5_null_total_raises :
    tier_actual "overall" jNullTotal = .error () ∧
    get_rankings "overall" (some (storeOf [jNullTotal])) =
      .resp ⟨"overall", [], [], 0, 500⟩ ∧
    tier_actual "overall" ⟨"p2", none, none, none, none, some 0, none⟩ =
      .ok (some "LT5") ∧
    get_rankings "Sword" (some (storeOf [jNullTotal])) =
      .resp ⟨"Sword", [⟨"p1", none, 0, "no", [], none⟩], [], 1, 200⟩ := by
  refine ⟨rfl, by decide, rfl, by decide⟩

/-- C6 is false as stated: with the store unavailable, the player-lookup and
stats reads do not degrade to an empty/default body — both return the
`Database connection failed` error with HTTP status 500, propagating the
failure to the caller. -/
theorem C6_counterexample :
    get_player none "x" = .failure "Database connection failed" 500 ∧
    get_stats none = .failure "Database connection failed" 500 :=
  ⟨rfl, rfl⟩

/-- C6 (amended): when the record store is unavailable, only the rankings
read degrades to an empty/default 200 response; the player-lookup and stats
reads surface the failure as a 500 error response. -/
theorem C6_amended_unavailable_reads (mode did : String) (h : mode ∈ valid_modes) :
    get_rankings mode none = .resp ⟨mode, [], [], 0, 200⟩ ∧
    get_player none did = .failure "Database connection failed" 500 ∧
    get_stats none = .failure "Database connection failed" 500 := by
  refine ⟨?_, rfl, rfl⟩
  unfold get_rankings
  rw [if_pos h]

/-- Witness for C6: the amended statement at mode "overall" and id "x". -/
theorem C6_amended_witness :
    get_rankings "overall" none = .resp ⟨"overall", [], [], 0, 200⟩ ∧
    get_player none "x" = .failure "Database connection failed" 500 ∧
    get_stats none = .failure "Database connection failed" 500 :=
  C6_amended_unavailable_reads "overall" "x" (by decide)

/-- C9: every rankings response that carries a body — success, the
store-unavailable default, and the 500 error body — has `total_players`
equal to the length of its `players` array. -/
theorem C9_total_players_matches (mode : String) (conn : Option Store) (r : RankResp)
    (h : get_rankings mode conn = .resp r) : r.total_players = r.players.length := by
  unfold get_rankings at h
  split at h
  · cases conn with
    | none => cases h; rfl
    | some st =>
        cases h
        show (rankings_body mode st).total_players = (rankings_body mode st).players.length
        unfold rankings_body
        cases process_rows mode ([], []) (sortJugadores st.jugadores) <;> rfl
  · exact RankingsResult.noConfusion h

/-- Witness for C9: the store-unavailable response of mode "overall". -/
theorem C9_witness :
    (RankResp.mk "overall" [] [] 0 200).total_players =
      (RankResp.mk "overall" [] [] 0 200).players.length :=
  C9_total_players_matches "overall" none (RankResp.mk "overall" [] [] 0 200) (by decide)

/-- C8: the expiry sweep removes exactly the rows whose `end_date` is at or
before now (NULL ends are never matched), returns the number of rows
removed, and is idempotent: sweeping the swept table again removes nothing
and returns 0. -/
theorem C8_sweep_expired (tbl : List CooldownRow) (now : Int) :
    (∀ r, r ∈ (delete_expired_cooldowns now tbl).1 ↔
        r ∈ tbl ∧ expiredB now r = false) ∧
    (delete_expired_cooldowns now tbl).2 + (delete_expired_cooldowns now tbl).1.length
      = tbl.length ∧
    delete_expired_cooldowns now (delete_expired_cooldowns now tbl).1
      = ((delete_expired_cooldowns now tbl).1, 0) := by
  refine ⟨fun r => ?_, ?_, ?_⟩
  · simp [delete_expired_cooldowns, List.mem_filter]
  · show (List.filter (expiredB now) tbl).length +
        (List.filter (fun r => !expiredB now r) tbl).length = tbl.length
    induction tbl with
    | nil => rfl
    | cons a l ih =>
        by_cases ha : expiredB now a = true <;>
          simp only [List.filter, ha, Bool.not_true, Bool.not_false, List.length_cons] <;>
          omega
  · unfold delete_expired_cooldowns
    rw [List.filter_filter, List.filter_filter]
    simp

/-! ### Lemmas about the row loop of `get_rankings` -/

theorem lookup_cons_pair {β : Type} (k : String) (v : β) (rest : List (String × β))
    (t : String) :
    List.lookup t ((k, v) :: rest) = if t = k then some v else List.lookup t rest := by
  simp only [List.lookup]
  by_cases h : t = k
  · simp [h]
  · simp [h, beq_false_of_ne h]

theorem build_player_ok_fields (mode : String) (j : Jugador) (obj : PlayerObj)
    (h : build_player mode j = .ok obj) :
    obj.id = j.discord_id ∧ obj.points = j.puntos_totales.getD 0 ∧
    tier_actual mode j = .ok obj.tier := by
  unfold build_player at h
  cases ht : tier_actual mode j with
  | error e => rw [ht] at h; exact Except.noConfusion h
  | ok t => rw [ht] at h; cases h; exact ⟨rfl, rfl, rfl⟩

theorem build_player_ne_overall (mode : String) (j : Jugador) (h : mode ≠ "overall") :
    build_player mode j = .ok
      { id := j.discord_id
        name := pyOrStr j.nick_mc j.discord_name
        points := j.puntos_totales.getD 0
        es_premium := if j.es_premium = some "si" then "si" else "no"
        modalidades := modalidadesOf j
        tier := (j.tier_por_modalidad.getD []).lookup mode } := by
  unfold build_player tier_actual
  rw [if_neg h]
  cases j.tier_por_modalidad <;> rfl

theorem build_player_total_some (mode : String) (j : Jugador) (p : Int)
    (h : j.puntos_totales = some p) :
    ∃ obj, build_player mode j = .ok obj := by
  by_cases hm : mode = "overall"
  · subst hm
    refine ⟨{ id := j.discord_id
              name := pyOrStr j.nick_mc j.discord_name
              points := j.puntos_totales.getD 0
              es_premium := if j.es_premium = some "si" then "si" else "no"
              modalidades := modalidadesOf j
              tier := some (tierOverallOf p) }, ?_⟩
    unfold build_player tier_actual
    rw [if_pos rfl, h]
  · exact ⟨_, build_player_ne_overall mode j hm⟩

theorem build_player_overall_tier (j : Jugador) (obj : PlayerObj)
    (h : build_player "overall" j = .ok obj) :
    ∃ q, obj.tier = some (tierOverallOf q) := by
  have hf := (build_player_ok_fields _ _ _ h).2.2
  unfold tier_actual at hf
  rw [if_pos rfl] at hf
  cases hq : j.puntos_totales with
  | none => rw [hq] at hf; exact Except.noConfusion hf
  | some q =>
      rw [hq] at hf
      injection hf with hf2
      exact ⟨q, hf2.symm⟩

theorem tierOverallOf_ne_empty (p : Int) : tierOverallOf p ≠ "" := by
  unfold tierOverallOf
  split_ifs <;> decide

theorem lookup_bucket_add (bs : Buckets) (t0 t : String) (obj : PlayerObj) :
    (bucket_add bs t0 obj).lookup t =
      if t = t0 then some ((bs.lookup t0).getD [] ++ [obj]) else bs.lookup t := by
  induction bs with
  | nil =>
      show List.lookup t [(t0, [obj])] = _
      rw [lookup_cons_pair]
      by_cases h : t = t0 <;> simp [h]
  | cons b rest ih =>
      obtain ⟨bk, bl⟩ := b
      show List.lookup t (if bk = t0 then (bk, bl ++ [obj]) :: rest
            else (bk, bl) :: bucket_add rest t0 obj) = _
      by_cases hb : bk = t0
      · subst hb
        rw [if_pos rfl]
        simp only [lookup_cons_pair]
        by_cases ht : t = bk <;> simp [ht]
      · rw [if_neg hb]
        simp only [lookup_cons_pair, ih]
        by_cases ht : t = bk <;> by_cases ht0 : t = t0 <;> simp_all

theorem mem_bucketOf_step (acc : List PlayerObj × Buckets) (obj : PlayerObj)
    (hinv : ∀ t p, p ∈ bucketOf acc.2 t ↔ p ∈ acc.1 ∧ p.tier = some t ∧ t ≠ "") :
    ∀ t p, p ∈ bucketOf (step_acc acc obj).2 t ↔
      p ∈ (step_acc acc obj).1 ∧ p.tier = some t ∧ t ≠ "" := by
  intro t p
  unfold step_acc
  simp only
  cases hob : obj.tier with
  | none =>
      rw [hinv t p]
      simp only [List.mem_append, List.mem_singleton]
      constructor
      · rintro ⟨h1, h2, h3⟩; exact ⟨.inl h1, h2, h3⟩
      · rintro ⟨h1 | h1, h2, h3⟩
        · exact ⟨h1, h2, h3⟩
        · subst h1; rw [hob] at h2; exact Option.noConfusion h2
  | some t0 =>
      show p ∈ bucketOf (if t0 = "" then acc.2 else bucket_add acc.2 t0 obj) t ↔
        p ∈ acc.1 ++ [obj] ∧ p.tier = some t ∧ t ≠ ""
      by_cases h0 : t0 = ""
      · rw [if_pos h0, hinv t p]
        simp only [List.mem_append, List.mem_singleton]
        constructor
        · rintro ⟨h1, h2, h3⟩; exact ⟨.inl h1, h2, h3⟩
        · rintro ⟨h1 | h1, h2, h3⟩
          · exact ⟨h1, h2, h3⟩
          · subst h1; rw [hob] at h2; cases h2; exact absurd h0 h3
      · rw [if_neg h0]
        unfold bucketOf
        rw [lookup_bucket_add]
        by_cases ht : t = t0
        · subst ht
          rw [if_pos rfl]
          simp only [Option.getD_some, List.mem_append, List.mem_singleton]
          constructor
          · rintro (h1 | h1)
            · have hh := (hinv t p).mp h1
              exact ⟨.inl hh.1, hh.2.1, hh.2.2⟩
            · subst h1; exact ⟨.inr rfl, hob, h0⟩
          · rintro ⟨h1 | h1, h2, h3⟩
            · exact .inl ((hinv t p).mpr ⟨h1, h2, h3⟩)
            · subst h1; exact .inr rfl
        · rw [if_neg ht]
          have hbase : p ∈ (acc.2.lookup t).getD [] ↔
              p ∈ acc.1 ∧ p.tier = some t ∧ t ≠ "" := hinv t p
          rw [hbase]
          simp only [List.mem_append, List.mem_singleton]
          constructor
          · rintro ⟨h1, h2, h3⟩; exact ⟨.inl h1, h2, h3⟩
          · rintro ⟨h1 | h1, h2, h3⟩
            · exact ⟨h1, h2, h3⟩
            · subst h1; rw [hob] at h2; cases h2; exact absurd rfl ht

theorem process_rows_inv (mode : String) (rows : List Jugador) :
    ∀ acc s, process_rows mode acc rows = .ok s →
      (∀ t p, p ∈ bucketOf acc.2 t ↔ p ∈ acc.1 ∧ p.tier = some t ∧ t ≠ "") →
      ∀ t p, p ∈ bucketOf s.2 t ↔ p ∈ s.1 ∧ p.tier = some t ∧ t ≠ "" := by
  induction rows with
  | nil =>
      intro acc s h hacc
      cases h
      exact hacc
  | cons j rest ih =>
      intro acc s h hacc
      unfold process_rows at h
      cases hb : build_player mode j with
      | error e => rw [hb] at h; exact Except.noConfusion h
      | ok obj =>
          rw [hb] at h
          exact ih _ _ h (mem_bucketOf_step acc obj hacc)

theorem process_rows_mono (mode : String) (rows : List Jugador) :
    ∀ acc s, process_rows mode acc rows = .ok s → ∀ p ∈ acc.1, p ∈ s.1 := by
  induction rows with
  | nil =>
      intro acc s h p hp
      cases h
      exact hp
  | cons j rest ih =>
      intro acc s h p hp
      unfold process_rows at h
      cases hb : build_player mode j with
      | error e => rw [hb] at h; exact Except.noConfusion h
      | ok obj =>
          rw [hb] at h
          exact ih _ _ h p (List.mem_append.mpr (.inl hp))

theorem process_rows_builds (mode : String) (rows : List Jugador) :
    ∀ acc s, process_rows mode acc rows = .ok s →
      ∀ j ∈ rows, ∃ obj, build_player mode j = .ok obj ∧ obj ∈ s.1 := by
  induction rows with
  | nil =>
      intro acc s h j hj
      exact absurd hj (List.not_mem_nil j)
  | cons j0 rest ih =>
      intro acc s h j hj
      unfold process_rows at h
      cases hb : build_player mode j0 with
      | error e => rw [hb] at h; exact Except.noConfusion h
      | ok obj =>
          rw [hb] at h
          rcases List.mem_cons.mp hj with hj0 | hjr
          · subst hj0
            refine ⟨obj, hb, ?_⟩
            exact process_rows_mono mode rest _ _ h obj
              (List.mem_append.mpr (.inr (List.mem_singleton.mpr rfl)))
          · exact ih _ _ h j hjr

theorem process_rows_provenance (mode : String) (rows : List Jugador) :
    ∀ acc s, process_rows mode acc rows = .ok s →
      ∀ p ∈ s.1, p ∈ acc.1 ∨ ∃ j ∈ rows, build_player mode j = .ok p := by
  induction rows with
  | nil =>
      intro acc s h p hp
      cases h
      exact .inl hp
  | cons j0 rest ih =>
      intro acc s h p hp
      unfold process_rows at h
      cases hb : build_player mode j0 with
      | error e => rw [hb] at h; exact Except.noConfusion h
      | ok obj =>
          rw [hb] at h
          rcases ih _ _ h p hp with hin | ⟨j, hj, hbj⟩
          · rcases List.mem_append.mp hin with h1 | h1
            · exact .inl h1
            · have hpo : p = obj := List.mem_singleton.mp h1
              subst hpo
              exact .inr ⟨j0, List.mem_cons_self j0 rest, hb⟩
          · exact .inr ⟨j, List.mem_cons_of_mem j0 hj, hbj⟩

theorem process_rows_ids (mode : String) (rows : List Jugador) :
    ∀ acc s, process_rows mode acc rows = .ok s →
      s.1.map PlayerObj.id = acc.1.map PlayerObj.id ++ rows.map Jugador.discord_id := by
  induction rows with
  | nil =>
      intro acc s h
      cases h
      simp
  | cons j rest ih =>
      intro acc s h
      unfold process_rows at h
      cases hb : build_player mode j with
      | error e => rw [hb] at h; exact Except.noConfusion h
      | ok obj =>
          rw [hb] at h
          rw [ih _ _ h]
          unfold step_acc
          simp [(build_player_ok_fields mode j obj hb).1]

theorem process_rows_points (mode : String) (rows : List Jugador) :
    ∀ acc s, process_rows mode acc rows = .ok s →
      s.1.map PlayerObj.points =
        acc.1.map PlayerObj.points ++ rows.map (fun j => j.puntos_totales.getD 0) := by
  induction rows with
  | nil =>
      intro acc s h
      cases h
      simp
  | cons j rest ih =>
      intro acc s h
      unfold process_rows at h
      cases hb : build_player mode j with
      | error e => rw [hb] at h; exact Except.noConfusion h
      | ok obj =>
          rw [hb] at h
          rw [ih _ _ h]
          unfold step_acc
          simp [(build_player_ok_fields mode j obj hb).2.1]

theorem process_rows_ok_of_builds (mode : String) (rows : List Jugador) :
    ∀ acc, (∀ j ∈ rows, ∃ obj, build_player mode j = .ok obj) →
      ∃ s, process_rows mode acc rows = .ok s := by
  induction rows with
  | nil => intro acc _; exact ⟨acc, rfl⟩
  | cons j rest ih =>
      intro acc hall
      obtain ⟨obj, hobj⟩ := hall j (List.mem_cons_self j rest)
      obtain ⟨s, hs⟩ := ih (step_acc acc obj)
        (fun j2 hj2 => hall j2 (List.mem_cons_of_mem j hj2))
      refine ⟨s, ?_⟩
      unfold process_rows
      rw [hobj]
      exact hs

theorem rankings_body_ok (mode : String) (st : Store) (s : List PlayerObj × Buckets)
    (hp : process_rows mode ([], []) (sortJugadores st.jugadores) = .ok s) :
    rankings_body mode st = ⟨mode, s.1, s.2, s.1.length, 200⟩ := by
  unfold rankings_body
  rw [hp]

theorem rankings_body_error (mode : String) (st : Store) (e : Unit)
    (hp : process_rows mode ([], []) (sortJugadores st.jugadores) = .error e) :
    rankings_body mode st = ⟨mode, [], [], 0, 500⟩ := by
  unfold rankings_body
  rw [hp]

/-- C1 is false as stated: api.py appends every row to `players_array`
unconditionally (line 162), so for a concrete mode a player with no tier
entry for that mode is still included in the players list (with a null
tier); only the tier buckets omit it.  `jNoTier` has no "Sword" entry in
its tier map, yet it is the one player returned by
`get_rankings "Sword"`. -/
theorem C1_counterexample :
    (jNoTier.tier_por_modalidad.getD []).lookup "Sword" = none ∧
    (playersOf (get_rankings "Sword" (some (storeOf [jNoTier])))).map PlayerObj.id
      = ["p1"] :=
  ⟨rfl, by decide⟩

/-- C1 (amended): for a valid concrete mode, `get_rankings` excludes nobody
from the players list — the response lists exactly the stored players (in
scan order), every stored player appears with its per-mode tier lookup as
the `tier` field (null when the mode is absent), and a player whose derived
tier is absent is merely omitted from every tier bucket. -/
theorem C1_amended_no_filtering (mode : String) (st : Store)
    (hm : mode ∈ valid_modes) (ho : mode ≠ "overall") :
    ∃ r, get_rankings mode (some st) = .resp r ∧ r.status = 200 ∧
      r.players.map PlayerObj.id = (sortJugadores st.jugadores).map Jugador.discord_id ∧
      r.players.length = st.jugadores.length ∧
      (∀ j ∈ st.jugadores, ∃ p ∈ r.players, p.id = j.discord_id ∧
          p.tier = (j.tier_por_modalidad.getD []).lookup mode) ∧
      (∀ p ∈ r.players, p.tier = none → ∀ t, p ∉ bucketOf r.tiers t) := by
  obtain ⟨s, hs⟩ := process_rows_ok_of_builds mode (sortJugadores st.jugadores) ([], [])
    (fun j _ => ⟨_, build_player_ne_overall mode j ho⟩)
  refine ⟨⟨mode, s.1, s.2, s.1.length, 200⟩, ?_, rfl, ?_, ?_, ?_, ?_⟩
  · unfold get_rankings
    rw [if_pos hm]
    show RankingsResult.resp (rankings_body mode st) = _
    rw [rankings_body_ok mode st s hs]
  · have h := process_rows_ids mode _ _ _ hs
    simpa using h
  · have h := congrArg List.length (process_rows_ids mode _ _ _ hs)
    simp only [List.length_map, List.length_append, List.length_nil] at h
    have h2 : (sortJugadores st.jugadores).length = st.jugadores.length :=
      List.length_insertionSort _ _
    show s.1.length = st.jugadores.length
    omega
  · intro j hj
    have hjs : j ∈ sortJugadores st.jugadores := by
      unfold sortJugadores
      exact (List.mem_insertionSort rowGE).mpr hj
    obtain ⟨obj, hb, hmem⟩ := process_rows_builds mode _ _ _ hs j hjs
    rw [build_player_ne_overall mode j ho] at hb
    injection hb with hb2
    subst hb2
    exact ⟨_, hmem, rfl, rfl⟩
  · intro p hp hnone t hmem
    have hinv := process_rows_inv mode _ _ _ hs
      (by intro t p; simp [bucketOf]) t p
    have h2 := (hinv.mp hmem).2.1
    rw [hnone] at h2
    exact Option.noConfusion h2

/-- Witness for C1: the amended statement at mode "Sword" on the store
holding only `jNoTier`. -/
theorem C1_amended_witness :
    ∃ r, get_rankings "Sword" (some (storeOf [jNoTier])) = .resp r ∧ r.status = 200 ∧
      r.players.map PlayerObj.id
        = (sortJugadores (storeOf [jNoTier]).jugadores).map Jugador.discord_id ∧
      r.players.length = (storeOf [jNoTier]).jugadores.length ∧
      (∀ j ∈ (storeOf [jNoTier]).jugadores, ∃ p ∈ r.players, p.id = j.discord_id ∧
          p.tier = (j.tier_por_modalidad.getD []).lookup "Sword") ∧
      (∀ p ∈ r.players, p.tier = none → ∀ t, p ∉ bucketOf r.tiers t) :=
  C1_amended_no_filtering "Sword" (storeOf [jNoTier]) (by decide) (by decide)

/-- C10 is false as stated: the bucketing guard is Python truthiness
(`if tier_actual:`), which treats the empty string like absence.  A player
whose stored "Sword" tier label is `""` gets the non-absent derived tier
`some ""` in the players array yet appears in no bucket — the claimed
"appears in `tiers[t]` iff derived tier is non-absent and equals `t`" fails
at `t = ""`. -/
theorem C10_counterexample :
    (playersOf (get_rankings "Sword" (some (storeOf [jEmptyTier])))).map PlayerObj.tier
      = [some ""] ∧
    tiersOf (get_rankings "Sword" (some (storeOf [jEmptyTier]))) = [] := by
  exact ⟨by decide, by decide⟩

/-- C10 (amended): in every successful rankings response a player object is
in bucket `tiers[t]` iff it is in the players array with derived tier
exactly `t` and `t` nonempty; consequently each player object lies in at
most one bucket, and for mode "overall" every player lies in exactly one
bucket. -/
theorem C10_amended_buckets (mode : String) (st : Store) (r : RankResp)
    (h : get_rankings mode (some st) = .resp r) (hok : r.status = 200) :
    (∀ t p, p ∈ bucketOf r.tiers t ↔ p ∈ r.players ∧ p.tier = some t ∧ t ≠ "") ∧
    (∀ p t1 t2, p ∈ bucketOf r.tiers t1 → p ∈ bucketOf r.tiers t2 → t1 = t2) ∧
    (mode = "overall" → ∀ p ∈ r.players, ∃ t, t ≠ "" ∧ p ∈ bucketOf r.tiers t) := by
  unfold get_rankings at h
  by_cases hm : mode ∈ valid_modes
  · rw [if_pos hm] at h
    have h2 : RankingsResult.resp (rankings_body mode st) = RankingsResult.resp r := h
    injection h2 with h3
    subst h3
    cases hp : process_rows mode ([], []) (sortJugadores st.jugadores) with
    | error e =>
        rw [rankings_body_error mode st e hp] at hok
        simp at hok
    | ok s =>
        rw [rankings_body_ok mode st s hp]
        have hinv := process_rows_inv mode _ _ _ hp
          (by intro t p; simp [bucketOf])
        refine ⟨hinv, ?_, ?_⟩
        · intro p t1 t2 h1 h2
          have e1 := ((hinv t1 p).mp h1).2.1
          have e2 := ((hinv t2 p).mp h2).2.1
          rw [e1] at e2
          injection e2
        · intro hov p hpp
          subst hov
          rcases process_rows_provenance _ _ _ _ hp p hpp with hin | ⟨j, _, hbj⟩
          · exact absurd hin (List.not_mem_nil p)
          · obtain ⟨q, hq⟩ := build_player_overall_tier j p hbj
            refine ⟨tierOverallOf q, tierOverallOf_ne_empty q, ?_⟩
            exact (hinv (tierOverallOf q) p).mpr ⟨hpp, hq, tierOverallOf_ne_empty q⟩
  · rw [if_neg hm] at h
    exact RankingsResult.noConfusion h

/-- Witness for C10: the amended statement for mode "overall" on the store
holding only `jNoTier`, whose response is `rNoTierOverall`. -/
theorem C10_amended_witness :
    (∀ t p, p ∈ bucketOf rNoTierOverall.tiers t ↔
        p ∈ rNoTierOverall.players ∧ p.tier = some t ∧ t ≠ "") ∧
    (∀ p t1 t2, p ∈ bucketOf rNoTierOverall.tiers t1 →
        p ∈ bucketOf rNoTierOverall.tiers t2 → t1 = t2) ∧
    ("overall" = "overall" → ∀ p ∈ rNoTierOverall.players,
        ∃ t, t ≠ "" ∧ p ∈ bucketOf rNoTierOverall.tiers t) :=
  C10_amended_buckets "overall" (storeOf [jNoTier]) rNoTierOverall (by decide) (by decide)

/-- C2 is false as stated: the store query orders by `puntos_totales DESC`
for every mode and never consults the mode-specific points.  With
`jSwordLow` (total 10, Sword points 1) listed before `jSwordHigh` (total 5,
Sword points 50), the "Sword" response's mode-specific points read
[1, 50] — not descending. -/
theorem C2_counterexample :
    (playersOf (get_rankings "Sword" (some (storeOf [jSwordLow, jSwordHigh])))).map
        (fun p => (p.modalidades.lookup "Sword").map Entry.puntos) = [some 1, some 50] ∧
    ¬ ((1 : Int) ≥ 50) :=
  ⟨by decide, by decide⟩

/-- C2 (amended): for every valid mode — "overall" or concrete — the entries
are ordered by the stored total points descending (the SQL sort key; ties
keep scan order by stability of the model's sort); the mode-specific points
are not a sort key.  When no stored total is NULL the displayed `points`
values are non-increasing along the players array. -/
theorem C2_amended_sorted_by_total (mode : String) (st : Store)
    (hm : mode ∈ valid_modes)
    (hsome : ∀ j ∈ st.jugadores, j.puntos_totales ≠ none) :
    ∃ r, get_rankings mode (some st) = .resp r ∧ r.status = 200 ∧
      List.Chain' (fun a b : Int => b ≤ a) (r.players.map PlayerObj.points) := by
  have hbuilds : ∀ j ∈ sortJugadores st.jugadores, ∃ obj, build_player mode j = .ok obj := by
    intro j hj
    have hj2 : j ∈ st.jugadores := by
      unfold sortJugadores at hj
      exact (List.mem_insertionSort rowGE).mp hj
    obtain ⟨p, hp⟩ := Option.ne_none_iff_exists.mp (hsome j hj2)
    exact build_player_total_some mode j p hp.symm
  obtain ⟨s, hs⟩ := process_rows_ok_of_builds mode (sortJugadores st.jugadores) ([], []) hbuilds
  refine ⟨⟨mode, s.1, s.2, s.1.length, 200⟩, ?_, rfl, ?_⟩
  · unfold get_rankings
    rw [if_pos hm]
    show RankingsResult.resp (rankings_body mode st) = _
    rw [rankings_body_ok mode st s hs]
  · show List.Chain' (fun a b : Int => b ≤ a) (s.1.map PlayerObj.points)
    rw [process_rows_points mode _ _ _ hs]
    simp only [List.map_nil, List.nil_append]
    have hsorted : List.Sorted rowGE (sortJugadores st.jugadores) :=
      List.sorted_insertionSort rowGE st.jugadores
    have hpair : List.Pairwise
        (fun a b : Jugador => (b.puntos_totales.getD 0 : Int) ≤ a.puntos_totales.getD 0)
        (sortJugadores st.jugadores) := by
      refine List.Pairwise.imp_of_mem ?_ hsorted
      intro a b ha hb hab
      have ha2 : a ∈ st.jugadores := by
        unfold sortJugadores at ha
        exact (List.mem_insertionSort rowGE).mp ha
      have hb2 : b ∈ st.jugadores := by
        unfold sortJugadores at hb
        exact (List.mem_insertionSort rowGE).mp hb
      obtain ⟨x, hx⟩ := Option.ne_none_iff_exists.mp (hsome a ha2)
      obtain ⟨y, hy⟩ := Option.ne_none_iff_exists.mp (hsome b hb2)
      unfold rowGE totDesc at hab
      rw [← hx, ← hy] at hab ⊢
      simpa using hab
    exact (List.pairwise_map.mpr hpair).chain'

/-- Witness for C2: the amended statement at mode "Sword" on the two-player
store; both totals are non-null. -/
theorem C2_amended_witness :
    ∃ r, get_rankings "Sword" (some (storeOf [jSwordLow, jSwordHigh])) = .resp r ∧
      r.status = 200 ∧
      List.Chain' (fun a b : Int => b ≤ a) (r.players.map PlayerObj.points) :=
  C2_amended_sorted_by_total "Sword" (storeOf [jSwordLow, jSwordHigh]) (by decide)
    (by decide)

/-! ### Lemmas about the cooldown dict -/

theorem dictSet_lookup_self {β : Type} (l : List (String × β)) (k : String) (v : β) :
    (dictSet l k v).lookup k = some v := by
  induction l with
  | nil =>
      show List.lookup k [(k, v)] = some v
      rw [lookup_cons_pair, if_pos rfl]
  | cons kv rest ih =>
      obtain ⟨k0, v0⟩ := kv
      show List.lookup k (if k0 = k then (k0, v) :: rest else (k0, v0) :: dictSet rest k v)
        = some v
      by_cases h : k0 = k
      · subst h
        rw [if_pos rfl, lookup_cons_pair, if_pos rfl]
      · rw [if_neg h, lookup_cons_pair, if_neg (fun hh => h hh.symm), ih]

theorem dictSet_lookup_other {β : Type} (l : List (String × β)) (k k2 : String) (v : β)
    (hne : k2 ≠ k) : (dictSet l k v).lookup k2 = l.lookup k2 := by
  induction l with
  | nil =>
      show List.lookup k2 [(k, v)] = none
      rw [lookup_cons_pair, if_neg hne]
      rfl
  | cons kv rest ih =>
      obtain ⟨k0, v0⟩ := kv
      show List.lookup k2 (if k0 = k then (k0, v) :: rest else (k0, v0) :: dictSet rest k v)
        = List.lookup k2 ((k0, v0) :: rest)
      by_cases h : k0 = k
      · subst h
        rw [if_pos rfl, lookup_cons_pair, lookup_cons_pair, if_neg hne, if_neg hne]
      · rw [if_neg h, lookup_cons_pair, lookup_cons_pair, ih]

theorem cdLookup_cdSet (m : CooldownMap) (pk mk2 p mo : String)
    (v : Option Int × Option Int) :
    cdLookup (cdSet m pk mk2 v) p mo =
      if p = pk ∧ mo = mk2 then some v else cdLookup m p mo := by
  unfold cdSet cdLookup
  cases hl : m.lookup pk with
  | none =>
      by_cases hp : p = pk
      · subst hp
        rw [dictSet_lookup_self]
        show List.lookup mo [(mk2, v)] = _
        rw [lookup_cons_pair]
        by_cases hmo : mo = mk2
        · rw [if_pos hmo, if_pos ⟨rfl, hmo⟩]
        · rw [if_neg hmo, if_neg (fun hh => hmo hh.2), hl]
          rfl
      · rw [dictSet_lookup_other _ _ _ _ hp, if_neg (fun hh => hp hh.1)]
  | some inner =>
      by_cases hp : p = pk
      · subst hp
        rw [dictSet_lookup_self]
        show (dictSet inner mk2 v).lookup mo = _
        by_cases hmo : mo = mk2
        · subst hmo
          rw [dictSet_lookup_self, if_pos ⟨rfl, rfl⟩]
        · rw [dictSet_lookup_other _ _ _ _ hmo, if_neg (fun hh => hmo hh.2), hl]
          rfl
      · rw [dictSet_lookup_other _ _ _ _ hp, if_neg (fun hh => hp hh.1)]

theorem cdLookup_build_not_mem (rows : List CooldownRow) :
    ∀ acc p mo, (∀ r ∈ rows, ¬(r.jugador_id = p ∧ r.modalidad = mo)) →
      cdLookup (rows.foldl cdStep acc) p mo = cdLookup acc p mo := by
  induction rows with
  | nil => intro acc p mo _; rfl
  | cons r rest ih =>
      intro acc p mo hall
      show cdLookup (rest.foldl cdStep (cdStep acc r)) p mo = cdLookup acc p mo
      rw [ih _ p mo (fun r2 h2 => hall r2 (List.mem_cons_of_mem r h2))]
      unfold cdStep
      rw [cdLookup_cdSet,
        if_neg (fun hh => hall r (List.mem_cons_self r rest) ⟨hh.1.symm, hh.2.symm⟩)]

theorem cdLookup_build_all_eq (rows : List CooldownRow) :
    ∀ acc p mo v,
      (∀ r ∈ rows, r.jugador_id = p → r.modalidad = mo → (r.start_date, r.end_date) = v) →
      (∃ r ∈ rows, r.jugador_id = p ∧ r.modalidad = mo) →
      cdLookup (rows.foldl cdStep acc) p mo = some v := by
  induction rows with
  | nil =>
      intro acc p mo v _ hex
      rcases hex with ⟨r, hr, _⟩
      exact absurd hr (List.not_mem_nil r)
  | cons r rest ih =>
      intro acc p mo v hall hex
      show cdLookup (rest.foldl cdStep (cdStep acc r)) p mo = some v
      by_cases hr : ∃ r2 ∈ rest, r2.jugador_id = p ∧ r2.modalidad = mo
      · exact ih _ p mo v (fun r2 h2 => hall r2 (List.mem_cons_of_mem r h2)) hr
      · rcases hex with ⟨r3, hr3, hk⟩
        rcases List.mem_cons.mp hr3 with he | he
        · subst he
          rw [cdLookup_build_not_mem rest _ p mo
            (fun r2 h2 hcon => hr ⟨r2, h2, hcon⟩)]
          unfold cdStep
          rw [cdLookup_cdSet, if_pos ⟨hk.1.symm, hk.2.symm⟩,
            hall r3 (List.mem_cons_self r3 rest) hk.1 hk.2]
        · exact absurd ⟨r3, he, hk⟩ hr

theorem save_cooldown_key_mem (tbl : List CooldownRow) (p m : String) (s e : Option Int) :
    ∀ r ∈ save_cooldown tbl p m s e, r.jugador_id = p → r.modalidad = m →
      r.start_date = s ∧ r.end_date = e := by
  intro r hr hrp hrm
  unfold save_cooldown at hr
  by_cases hany : tbl.any (fun r => r.jugador_id == p && r.modalidad == m)
  · rw [if_pos hany] at hr
    rcases List.mem_map.mp hr with ⟨r0, hr0, heq⟩
    by_cases hk : (r0.jugador_id == p && r0.modalidad == m) = true
    · rw [if_pos hk] at heq
      subst heq
      exact ⟨rfl, rfl⟩
    · rw [if_neg hk] at heq
      subst heq
      simp [hrp, hrm] at hk
  · rw [if_neg hany] at hr
    rcases List.mem_append.mp hr with h1 | h1
    · exfalso
      exact hany (List.any_eq_true.mpr ⟨r, h1, by simp [hrp, hrm]⟩)
    · have h2 : r = ⟨p, m, s, e⟩ := List.mem_singleton.mp h1
      subst h2
      exact ⟨rfl, rfl⟩

theorem save_cooldown_key_exists (tbl : List CooldownRow) (p m : String)
    (s e : Option Int) :
    ∃ r ∈ save_cooldown tbl p m s e, r.jugador_id = p ∧ r.modalidad = m ∧
      r.start_date = s ∧ r.end_date = e := by
  unfold save_cooldown
  by_cases hany : tbl.any (fun r => r.jugador_id == p && r.modalidad == m)
  · rw [if_pos hany]
    rcases List.any_eq_true.mp hany with ⟨r0, hr0, hk⟩
    have hks := Bool.and_eq_true_iff.mp hk
    have hp1 : r0.jugador_id = p := by simpa using hks.1
    have hm1 : r0.modalidad = m := by simpa using hks.2
    refine ⟨{ r0 with start_date := s, end_date := e },
      List.mem_map.mpr ⟨r0, hr0, by rw [if_pos hk]⟩, hp1, hm1, rfl, rfl⟩
  · rw [if_neg hany]
    exact ⟨⟨p, m, s, e⟩,
      List.mem_append.mpr (.inr (List.mem_singleton.mpr rfl)), rfl, rfl, rfl, rfl⟩

/-- C7: after upserting the cooldown window `(s, e)` for `(p, m)` — which
overwrites any previous window for that key — the active-cooldowns query at
time `now` contains the entry `p → m → (s, e)` iff `e` is strictly in the
future; otherwise the key is absent. -/
theorem C7_cooldown_roundtrip (tbl : List CooldownRow) (p m : String) (s e now : Int) :
    cdLookup (get_active_cooldowns now (save_cooldown tbl p m (some s) (some e))) p m
      = if now < e then some (some s, some e) else none := by
  unfold get_active_cooldowns
  by_cases hact : now < e
  · rw [if_pos hact]
    apply cdLookup_build_all_eq
    · intro r hr hrp hrm
      have hm2 := save_cooldown_key_mem tbl p m (some s) (some e) r
        (List.mem_filter.mp hr).1 hrp hrm
      rw [hm2.1, hm2.2]
    · rcases save_cooldown_key_exists tbl p m (some s) (some e) with
        ⟨r, hr, hp1, hm1, hs1, he1⟩
      refine ⟨r, List.mem_filter.mpr ⟨hr, ?_⟩, hp1, hm1⟩
      unfold activeB
      rw [he1]
      simpa using hact
  · rw [if_neg hact]
    rw [cdLookup_build_not_mem _ _ p m ?_]
    · rfl
    · rintro r hr ⟨hrp, hrm⟩
      have h1 := List.mem_filter.mp hr
      have hm2 := save_cooldown_key_mem tbl p m (some s) (some e) r h1.1 hrp hrm
      have h2 := h1.2
      unfold activeB at h2
      rw [hm2.2] at h2
      simp at h2
      exact hact h2

/-! ### The Result Recorder invariant -/

theorem save_or_update_row (tbl : List Jugador) (d : JugadorData) :
    ∀ j ∈ save_or_update_jugador tbl d, j.discord_id = d.discord_id →
      j = jugadorRowOfData d := by
  intro j hj hid
  unfold save_or_update_jugador at hj
  by_cases hany : tbl.any (fun j => j.discord_id == d.discord_id)
  · rw [if_pos hany] at hj
    rcases List.mem_map.mp hj with ⟨j0, hj0, heq⟩
    by_cases hk : (j0.discord_id == d.discord_id) = true
    · rw [if_pos hk] at heq
      exact heq.symm
    · rw [if_neg hk] at heq
      subst heq
      simp [hid] at hk
  · rw [if_neg hany] at hj
    rcases List.mem_append.mp hj with h1 | h1
    · exact absurd (List.any_eq_true.mpr ⟨j, h1, by simp [hid]⟩) hany
    · exact List.mem_singleton.mp h1

/-- C3 (spec-modelled recorder over the embedded persistence layer): after a
successful `record_result`, the updated player's stored `puntos_totales`
equals the sum of its stored per-mode points entries, and the resulting
players table is independent of the caller-supplied total — that total only
reaches the TestResult log row. -/
theorem C3_recorder_recomputes_total (now : Int) (st : Store) (i : ResultInput)
    (jid : String) (hj : i.jugador_id = some jid) (st2 : Store)
    (h : record_result now st i = .ok st2) (x y : Option Int) :
    (∀ j ∈ st2.jugadores, j.discord_id = jid →
        j.puntos_totales = some (((j.puntos_por_modalidad.getD []).map Prod.snd).sum)) ∧
    jugadoresOf (record_result now st { i with puntos_totales := x }) =
      jugadoresOf (record_result now st { i with puntos_totales := y }) := by
  constructor
  · intro j hjm hid
    unfold record_result at h
    rw [hj] at h
    cases hti : i.tester_id with
    | none =>
        rw [hti] at h
        exact Except.noConfusion h
    | some tid =>
        rw [hti] at h
        have h3 : Except.ok (recorder_apply now st i jid tid) = Except.ok st2 := h
        injection h3 with h4
        subst h4
        have hjm2 : j ∈ save_or_update_jugador st.jugadores (recorder_data st i jid) := hjm
        have hrow := save_or_update_row st.jugadores (recorder_data st i jid) j hjm2 hid
        rw [hrow]
        rfl
  · obtain ⟨ji, ti, nm, jn, tn, md, ta, tnv, po, pt, fe⟩ := i
    cases ji <;> cases ti <;> rfl

/-- Witness for C3: recording 30 Sword points for a fresh player with a
bogus caller total of 999 stores a recomputed total of 30, and swapping the
caller total for `none` leaves the players table unchanged. -/
theorem C3_witness :
    (∀ j ∈ sampleOutStore.jugadores, j.discord_id = "x" →
        j.puntos_totales = some (((j.puntos_por_modalidad.getD []).map Prod.snd).sum)) ∧
    jugadoresOf (record_result 5 (storeOf []) { sampleInput with puntos_totales := some 999 })
      = jugadoresOf (record_result 5 (storeOf []) { sampleInput with puntos_totales := none }) :=
  C3_recorder_recomputes_total 5 (storeOf []) sampleInput "x" rfl sampleOutStore rfl
    (some 999) none

end Papayas
